import Mathlib

/-!
Verification development for the supervisor/worker orchestration engine of the
Agent_00LLM repository (src/first_tests).  The Python sources are shallowly
embedded: the decision oracle (an LLM call), the capability-bound react agents
and the nested compiled graphs are parameters of the Lean functions, while the
routing logic, state updates, tool error handling and the driver loop are
translated from the source line by line.
-/

namespace FrancisAgency

/-- A LangChain message: role, optional author name, content.
Mirrors `HumanMessage(content=..., name=...)` (role "human"). -/
structure Message where
  role : String
  name : Option String
  content : String
deriving Repr, DecidableEq

/-- The shared graph state, from `class State(MessagesState)` in
francis_agency.py: a message list plus the routing scratch fields `next` and
`instructions`.  The TypedDict keys may be absent before first written, so the
scratch fields are `Option` (absent = `none`; reads below use the
`state.get(key, default)` semantics of the call sites). -/
structure State where
  messages : List Message
  next : Option String
  instructions : Option String
deriving Repr, DecidableEq

/-- langgraph's terminal sentinel `END` (the constant string "__end__"). -/
def END : String := "__end__"

/-- The `Router` TypedDict: the structured output the decision oracle returns
to a supervisor (francis_agency.py lines 59-66). -/
structure RoutingDecision where
  next : String
  instructions : Option String
  comment : Option String
  answer : Option String
deriving Repr, DecidableEq

/-- The `Command` a supervisor node returns: a goto target plus the update
dict `{next, instructions, messages}` (francis_agency.py lines 79-86). -/
structure SupCommand where
  goto : String
  updNext : String
  updInstructions : Option String
  updAnswer : Option String
deriving Repr, DecidableEq

/-- The `Command` a worker node returns: goto plus a message-list update. -/
structure WCommand where
  goto : String
  updMessages : List Message
deriving Repr, DecidableEq

/-- `add_messages` coercion of the supervisor's `"messages": response["answer"]`
update: a plain string becomes one `HumanMessage` with no name; `None` (here
`none`) appends nothing. -/
def coerceAnswer : Option String → List Message
  | none => []
  | some a => [⟨"human", none, a⟩]

/-- Applying a supervisor command's update dict to the state: the message
reducer appends, `next` and `instructions` are last-value channels. -/
def applySup (st : State) (c : SupCommand) : State :=
  { messages := st.messages ++ coerceAnswer c.updAnswer
    next := some c.updNext
    instructions := c.updInstructions }

/-- Applying a worker command's update dict (messages only). -/
def applyWorker (st : State) (c : WCommand) : State :=
  { st with messages := st.messages ++ c.updMessages }

/-- The system prompt built in `make_supervisor_node`
(`custom_prompt + supervisors_prompt.format(today=today, members=members)`).
The prompt wording is opaque natural-language text (out of scope per the
design); only its dependence on the member roster is kept. -/
def team_system_prompt (custom_prompt : String) (members : List String) : String :=
  custom_prompt ++ "You are in charge of coordinating the following workers: " ++
    String.intercalate ", " members ++ "."

/-- `make_supervisor_node` (francis_agency.py lines 52-88).  The LLM with
structured output is the parameter `oracle`; it receives the system prompt and
the state's message history and returns a `Router` decision.  Note the source
performs no validation of `response["next"]` against `members`: the only
transformation is mapping the sentinel "FINISH" to langgraph's `END`, and the
resulting goto is also written into `state.next`. -/
def make_supervisor_node (oracle : String → List Message → RoutingDecision)
    (members : List String) (custom_prompt : String) : State → SupCommand :=
  fun st =>
    let response := oracle (team_system_prompt custom_prompt members) st.messages
    let goto := if response.next = "FINISH" then END else response.next
    ⟨goto, goto, response.instructions, response.answer⟩

/-- Worker roster of the root team (francis_agency.py lines 92-100; the source
passes a dict whose keys are these names, the values being capability
descriptions that only feed the prompt). -/
def root_members : List String := ["research_team", "trip_planner", "accomodation_agent"]

/-- `search_node` (lines 108-117): run the react agent on the state, then emit
one digest message attributed to "search" and hand control back to the
supervisor.  `result["messages"][-1]` on an empty list would raise IndexError,
modelled as `none`. -/
def search_node (search_agent : State → State) (st : State) : Option WCommand :=
  ((search_agent st).messages.getLast?).map fun lm =>
    ⟨"supervisor", [⟨"human", some "search", lm.content⟩]⟩

/-- `meteo_node` (lines 123-132), same shape as `search_node`. -/
def meteo_node (meteo_agent : State → State) (st : State) : Option WCommand :=
  ((meteo_agent st).messages.getLast?).map fun lm =>
    ⟨"supervisor", [⟨"human", some "meteo", lm.content⟩]⟩

/-- `search_flight_node` (lines 175-184). -/
def search_flight_node (flight_agent : State → State) (st : State) : Option WCommand :=
  ((flight_agent st).messages.getLast?).map fun lm =>
    ⟨"supervisor", [⟨"human", some "flight", lm.content⟩]⟩

/-- `search_hotel_node` (lines 223-232). -/
def search_hotel_node (hotel_agent : State → State) (st : State) : Option WCommand :=
  ((hotel_agent st).messages.getLast?).map fun lm =>
    ⟨"supervisor", [⟨"human", some "hotel", lm.content⟩]⟩

/-- Python whitespace, as stripped by `str.strip()` (space, tab, newline,
carriage return, vertical tab, form feed). -/
def isPySpace (c : Char) : Bool :=
  c = ' ' || c = '\t' || c = '\n' || c = '\r' || c = Char.ofNat 11 || c = Char.ofNat 12

/-- Python `s.strip()`: drop whitespace from both ends. -/
def pyStrip (s : String) : String :=
  String.mk (((s.data.dropWhile isPySpace).reverse.dropWhile isPySpace).reverse)

/-- Python `s.lower()` (ASCII case folding suffices here). -/
def pyLower (s : String) : String := String.mk (s.data.map Char.toLower)

/-- `state.get("instructions", "")` at the `call_*_team` sites: the TypedDict
default applies when the key was never written. -/
def instrRead (st : State) : String := st.instructions.getD ""

/-- The seed content a `call_*_team` function computes (lines 151-153,
199-201, 247-249):
`content_to_send = state.get("instructions", "").strip()`;
`if not content_to_send: content_to_send = state["messages"][-1].content`.
The whitespace-stripped instructions are used when nonempty, otherwise the
content of the LAST message of the parent history, whatever its author;
`state["messages"][-1]` on an empty log raises IndexError (`none`). -/
def contentToSend (st : State) : Option String :=
  let s := pyStrip (instrRead st)
  if s = "" then (st.messages.getLast?).map (·.content) else some s

/-- The fresh child state a delegation creates:
`State(messages=[HumanMessage(content=content_to_send, name=<team name>)])`.
Exactly one initial message; the scratch keys are unset. -/
def subTeamLocalState (teamName : String) (c : String) : State :=
  ⟨[⟨"human", some teamName, c⟩], none, none⟩

/-- Common body of `call_research_team` / `call_trip_team` /
`call_accomodation_team` (lines 150-166, 198-214, 246-262), which are
textually identical up to the team name and the compiled sub-graph: seed a
brand-new child state, run the child graph to completion, and append the
child's final message re-attributed to the team's external name, returning to
the supervisor.  Errors (`Except.error`) model uncaught Python exceptions
(IndexError on an empty list, or a graph failure propagating). -/
def call_team_node (teamName : String) (invokeGraph : State → Except String State)
    (st : State) : Except String WCommand :=
  match contentToSend st with
  | none => .error "IndexError: list index out of range"
  | some c =>
    match invokeGraph (subTeamLocalState teamName c) with
    | .error e => .error e
    | .ok sub =>
      match sub.messages.getLast? with
      | none => .error "IndexError: list index out of range"
      | some lm => .ok ⟨"supervisor", [⟨"human", some teamName, lm.content⟩]⟩

/-- `call_research_team` (lines 150-166). -/
def call_research_team (invokeGraph : State → Except String State) (st : State) :
    Except String WCommand :=
  call_team_node "research_team" invokeGraph st

/-- `call_trip_team` (lines 198-214). -/
def call_trip_team (invokeGraph : State → Except String State) (st : State) :
    Except String WCommand :=
  call_team_node "trip_planner" invokeGraph st

/-- `call_accomodation_team` (lines 246-262). -/
def call_accomodation_team (invokeGraph : State → Except String State) (st : State) :
    Except String WCommand :=
  call_team_node "accomodation_agent" invokeGraph st

/-- One transition of a compiled team graph: the supervisor node runs the
routing decision, a registered worker runs its digest step, an unregistered
target is a langgraph routing error. -/
def stepNode (sup : State → SupCommand)
    (workers : List (String × (State → Option WCommand)))
    (node : String) (st : State) : Except String (String × State) :=
  if node = "supervisor" then
    let c := sup st
    .ok (c.goto, applySup st c)
  else
    match List.lookup node workers with
    | none => .error ("Unknown node: " ++ node)
    | some w =>
      match w st with
      | none => .error "IndexError: list index out of range"
      | some wc => .ok (wc.goto, applyWorker st wc)

/-- Run a compiled graph from a node until `END`, bounded by the recursion
limit (fuel); exhausting it is langgraph's GraphRecursionError. -/
def runFrom (sup : State → SupCommand)
    (workers : List (String × (State → Option WCommand))) :
    Nat → String → State → Except String State
  | 0, _, _ => .error "GraphRecursionError: Recursion limit reached"
  | Nat.succ fuel, node, st =>
    if node = END then .ok st
    else
      match stepNode sup workers node st with
      | .error e => .error e
      | .ok (nxt, st1) => runFrom sup workers fuel nxt st1

/-- `graph.invoke(state)`: the `START -> supervisor` edge then run to END. -/
def graph_invoke (sup : State → SupCommand)
    (workers : List (String × (State → Option WCommand)))
    (fuel : Nat) (st : State) : Except String State :=
  runFrom sup workers fuel "supervisor" st

/-- The compiled research team graph (lines 135-147): supervisor over
["search", "meteo"], both worker nodes bound to their react agents. -/
def research_graph_invoke (oracle : String → List Message → RoutingDecision)
    (sAgent mAgent : State → State) (fuel : Nat) : State → Except String State :=
  graph_invoke (make_supervisor_node oracle ["search", "meteo"] "research team prompt ")
    [("search", search_node sAgent), ("meteo", meteo_node mAgent)] fuel

/-- The compiled flight team graph (lines 187-195). -/
def flight_graph_invoke (oracle : String → List Message → RoutingDecision)
    (fAgent : State → State) (fuel : Nat) : State → Except String State :=
  graph_invoke (make_supervisor_node oracle ["flight"] "trip planner prompt ")
    [("flight", search_flight_node fAgent)] fuel

/-! ## Driver loop (francis_agency.py lines 311-365)

The `while True` console loop.  One turn: read input; "exit" (lowercased)
breaks, an empty input skips the turn entirely; otherwise the user message is
appended to the session state and `super_graph.stream(state, ...)` is iterated
output by output, each processed update being printed and its message appended
to the session log.  The stream is modelled by the list of update dicts it
yields (`outs`) plus how it ends (`StreamEnd`): normally, or by raising
GraphRecursionError when the recursion limit of 100 is breached.  Any
exception is caught by the blanket handler, which only prints
"Erreur : {e}". -/

/-- The value under the "messages" key of a streamed update dict: worker
updates carry a message list, supervisor updates carry `response["answer"]`,
which is a plain string or Python `None` (on which `len()` raises). -/
inductive MsgsVal where
  | list (l : List Message)
  | str (s : String)
  | pyNone
deriving Repr, DecidableEq

/-- One node's streamed update dict, as inspected by the driver: the
"messages" value, and the "next"/"instructions" keys when present. -/
structure NodeUpd where
  messages : MsgsVal
  next : Option String
  instructions : Option String
deriving Repr, DecidableEq

/-- Console output events of one turn (the f-string print calls, kept
structural): a message line, an instructions routing line, the "---"
separator, and the blanket error line `Erreur : {e}` carrying message e. -/
inductive Event where
  | msgLine (emoji : String) (content : String)
  | instrLine (emojiFrom : String) (emojiTo : String) (instr : String)
  | sep
  | errLine (msg : String)
deriving Repr, DecidableEq

/-- `emoji_dict` (lines 299-304); indexing a missing key raises KeyError. -/
def emoji_dict : List (String × String) :=
  [("supervisor", "🤖"), ("research_team", "🌤️"),
   ("trip_planner", "🛫"), ("accomodation_agent", "🏨")]

/-- The `if len(output[...]["messages"]) > 0` block of the stream loop
(lines 333-350): append the last list message, or wrap a bare string into a
`HumanMessage` named after the agent; `len(None)` raises TypeError.  The
result triple is (mutated state, printed events, uncaught exception message if
any); mutations made before an exception persist. -/
def processMsgs (st : State) (agent em : String) (mv : MsgsVal) :
    State × List Event × Option String :=
  match mv with
  | .pyNone => (st, [], some "TypeError: object of type NoneType has no len()")
  | .list l =>
    match l.getLast? with
    | none => (st, [], none)
    | some lm => ({ st with messages := st.messages ++ [lm] },
                  [.msgLine em lm.content], none)
  | .str s =>
    if s = "" then (st, [], none)
    else ({ st with messages := st.messages ++ [⟨"human", some agent, s⟩] },
          [.msgLine em s], none)

/-- The `if "instructions" in output[...]` routing-line print (lines 351-357). -/
def processInstr (st1 : State) (em : String) (evs : List Event) (upd : NodeUpd) :
    State × List Event × Option String :=
  match upd.instructions with
  | none => (st1, evs, none)
  | some instr =>
    if instr = "" then (st1, evs, none)
    else
      match upd.next with
      | none => (st1, evs, some "KeyError")
      | some nxt =>
        match List.lookup nxt emoji_dict with
        | none => (st1, evs, some "KeyError")
        | some em2 => (st1, evs ++ [.instrLine em em2 instr], none)

/-- Processing one agent's update: emoji lookup, the messages block, then the
instructions print. -/
def processAgent (st : State) (agent : String) (upd : NodeUpd) :
    State × List Event × Option String :=
  match List.lookup agent emoji_dict with
  | none => (st, [], some "KeyError")
  | some em =>
    match processMsgs st agent em upd.messages with
    | (st1, evs, some e) => (st1, evs, some e)
    | (st1, evs, none) => processInstr st1 em evs upd

/-- `for agent_identifier in output.keys(): ...` over one streamed output. -/
def processAgents (st : State) (pairs : List (String × NodeUpd)) :
    State × List Event × Option String :=
  match pairs with
  | [] => (st, [], none)
  | (a, u) :: rest =>
    match processAgent st a u with
    | (st1, evs, some e) => (st1, evs, some e)
    | (st1, evs, none) =>
      match processAgents st1 rest with
      | (st2, evs2, r) => (st2, evs ++ evs2, r)

/-- One stream output: process every agent key, then `print("---")`. -/
def processOutput (st : State) (out : List (String × NodeUpd)) :
    State × List Event × Option String :=
  match processAgents st out with
  | (st1, evs, some e) => (st1, evs, some e)
  | (st1, evs, none) => (st1, evs ++ [.sep], none)

/-- The whole `for output in super_graph.stream(...)` loop body; stops at the
first uncaught exception, keeping the state mutated so far. -/
def processOutputs (st : State) (outs : List (List (String × NodeUpd))) :
    State × List Event × Option String :=
  match outs with
  | [] => (st, [], none)
  | out :: rest =>
    match processOutput st out with
    | (st1, evs, some e) => (st1, evs, some e)
    | (st1, evs, none) =>
      match processOutputs st1 rest with
      | (st2, evs2, r) => (st2, evs ++ evs2, r)

/-- How the graph stream terminates after yielding its outputs. -/
inductive StreamEnd where
  | done
  | breach (msg : String)
deriving Repr, DecidableEq

/-- Result of one driver turn: the session state afterwards, the console
events, and whether the graph was driven at all this turn. -/
structure TurnResult where
  state : State
  events : List Event
  graphInvoked : Bool
deriving Repr, DecidableEq

/-- One iteration of the driver `while True` loop (lines 311-365) on input
`user_input`, with the graph stream yielding `outs` then ending by `ending`.
"exit" breaks the loop; an empty input restarts it without touching the state;
otherwise the user message is appended, the stream is consumed, and any
exception (a processing crash or the stream's GraphRecursionError) is caught
by the blanket handler which prints `Erreur : {e}` — it appends nothing to the
session log. -/
def driver_turn (user_input : String) (outs : List (List (String × NodeUpd)))
    (ending : StreamEnd) (st : State) : TurnResult :=
  if pyLower user_input = "exit" then ⟨st, [], false⟩
  else if user_input = "" then ⟨st, [], false⟩
  else
    let st1 : State := { st with messages := st.messages ++ [⟨"human", some "user", user_input⟩] }
    match processOutputs st1 outs with
    | (st2, evs, some e) => ⟨st2, evs ++ [.errLine e], true⟩
    | (st2, evs, none) =>
      match ending with
      | .done => ⟨st2, evs, true⟩
      | .breach e => ⟨st2, evs ++ [.errLine e], true⟩

/-! ## Capability tools

Shallow embedding of the HTTP-backed tools.  The network is a parameter: each
`_run` receives the outcome of its `requests.get` call.  Python values placed
in request parameter dicts and JSON responses are modelled by a small JSON
value type, and `json.dumps` (default separators, `ensure_ascii=False`) is
reproduced. -/

/-- A Python/JSON value as used by the tools. -/
inductive JVal where
  | str (s : String)
  | num (n : Int)
  | bool (b : Bool)
  | null
  | arr (elems : List JVal)
  | obj (fields : List (String × JVal))

/-- Lower hex digit. -/
def hexDigit (n : Nat) : Char :=
  if n < 10 then Char.ofNat (48 + n) else Char.ofNat (87 + n)

/-- `json.dumps` escaping of one character (`ensure_ascii=False`): quote,
backslash and control characters are escaped, everything else is verbatim. -/
def jsonEscapeChar (c : Char) : String :=
  if c = '"' then "\\\""
  else if c = '\\' then "\\\\"
  else if c = '\n' then "\\n"
  else if c = '\t' then "\\t"
  else if c = '\r' then "\\r"
  else if c = Char.ofNat 8 then "\\b"
  else if c = Char.ofNat 12 then "\\f"
  else if c.toNat < 32 then
    "\\u00" ++ String.mk [hexDigit (c.toNat / 16), hexDigit (c.toNat % 16)]
  else String.singleton c

/-- `json.dumps` escaping of a string body. -/
def jsonEscape (s : String) : String := String.join (s.data.map jsonEscapeChar)

mutual

/-- `json.dumps` with the default separators (", " and ": "). -/
def dumps : JVal → String
  | .str s => "\"" ++ jsonEscape s ++ "\""
  | .num n => toString n
  | .bool b => if b then "true" else "false"
  | .null => "null"
  | .arr xs => "[" ++ dumpsList xs ++ "]"
  | .obj fs => "\x7b" ++ dumpsFields fs ++ "\x7d"

/-- Array elements, comma separated. -/
def dumpsList : List JVal → String
  | [] => ""
  | [x] => dumps x
  | x :: y :: rest => dumps x ++ ", " ++ dumpsList (y :: rest)

/-- Object fields, comma separated, insertion order (Python dict order). -/
def dumpsFields : List (String × JVal) → String
  | [] => ""
  | [(k, v)] => "\"" ++ jsonEscape k ++ "\": " ++ dumps v
  | (k, v) :: f :: rest =>
    "\"" ++ jsonEscape k ++ "\": " ++ dumps v ++ ", " ++ dumpsFields (f :: rest)

end

/-- Python truthiness filter for an optional string (both `None` and `""` are
falsy). -/
def pyStrOpt (o : Option String) : Option String :=
  match o with
  | some s => if s = "" then none else some s
  | none => none

/-- `serpapi_key = api_key or os.getenv("SERPAPI_API_KEY")` followed by the
`if not serpapi_key` guard: the first truthy of the two, if any. -/
def serpKeyOf (api_key env_key : Option String) : Option String :=
  match pyStrOpt api_key with
  | some k => some k
  | none => pyStrOpt env_key

/-- `if v:`-guarded optional string parameter. -/
def addStr (k : String) (v : Option String) : List (String × JVal) :=
  match v with
  | some s => if s = "" then [] else [(k, .str s)]
  | none => []

/-- `if v is not None:`-guarded optional int parameter. -/
def addNum (k : String) (v : Option Int) : List (String × JVal) :=
  match v with
  | some n => [(k, .num n)]
  | none => []

/-- Outcome of a `requests.get(...)` + `raise_for_status()` pair:
the body text, or a `requests.exceptions.RequestException` with message
`str(e)` (covers network failures, auth and rate-limit HTTP errors). -/
inductive NetResult where
  | ok (text : String)
  | exc (msg : String)

/-- The request parameter dict built by `FlightSearchTool._run`
(flights_tool.py lines 169-210); `ty` is the Python parameter `type`. -/
def flights_params (serpapi_key : String)
    (departure_id arrival_id outbound_date return_date : Option String)
    (ty travel_class adults children infants_in_seat infants_on_lap stops : Int)
    (gl hl currency : Option String) (max_price : Option Int)
    (outbound_times return_times : Option String) (deep_search : Bool) :
    List (String × JVal) :=
  [("engine", .str "google_flights"), ("api_key", .str serpapi_key),
   ("type", .num ty), ("travel_class", .num travel_class),
   ("adults", .num adults), ("children", .num children),
   ("infants_in_seat", .num infants_in_seat), ("infants_on_lap", .num infants_on_lap),
   ("stops", .num stops)]
  ++ addStr "outbound_date" outbound_date
  ++ (if ty = 1 then addStr "return_date" return_date else [])
  ++ addStr "departure_id" departure_id ++ addStr "arrival_id" arrival_id
  ++ addStr "gl" gl ++ addStr "hl" hl ++ addStr "currency" currency
  ++ addNum "max_price" max_price
  ++ addStr "outbound_times" outbound_times
  ++ (if ty = 1 then addStr "return_times" return_times else [])
  ++ (if deep_search then [("deep_search", .str "true")] else [])

/-- `FlightSearchTool._run` (flights_tool.py lines 133-222).  Every code path
returns a string to the caller: a missing key and a request exception are both
translated into human-readable error strings; success returns the raw response
text.  `net` maps the request parameters to the call outcome (a deterministic
capability). -/
def flights_run (api_key env_key : Option String)
    (departure_id arrival_id outbound_date return_date : Option String)
    (ty travel_class adults children infants_in_seat infants_on_lap stops : Int)
    (gl hl currency : Option String) (max_price : Option Int)
    (outbound_times return_times : Option String) (deep_search : Bool)
    (net : List (String × JVal) → NetResult) : String :=
  match serpKeyOf api_key env_key with
  | none => "Error: No SerpApi key provided (SERPAPI_API_KEY)."
  | some serpapi_key =>
    match net (flights_params serpapi_key departure_id arrival_id outbound_date
        return_date ty travel_class adults children infants_in_seat
        infants_on_lap stops gl hl currency max_price outbound_times
        return_times deep_search) with
    | .ok text => text
    | .exc e => "Error during API call: " ++ e

/-- An ASCII apostrophe, used in the weather tool's error message. -/
def sq : String := String.singleton (Char.ofNat 39)

/-- Outcome of the OpenWeatherMap geocoding request inside
`fetch_city_coordinates` (meteo_tool.py lines 17-39): an exception, an empty
result list, or a latitude/longitude pair.  Coordinates are floating-point in
the API and flow through opaquely; they are modelled as integer tokens. -/
inductive GeoOutcome where
  | exc (msg : String)
  | empty
  | found (lat lon : Int)

/-- `fetch_city_coordinates`: both the request exception and the empty
geocoding answer collapse to `(None, None)`. -/
def fetch_city_coordinates (outcome : GeoOutcome) : Option (Int × Int) :=
  match outcome with
  | .exc _ => none
  | .empty => none
  | .found lat lon => some (lat, lon)

/-- One element of the "daily" forecast list; `weather` models
`day["weather"][0]["description"] if "weather" in day else ""`, temperatures
are inert numeric tokens (floats in the API). -/
structure WDay where
  dt : Int
  weather : Option String
  temp_day : Int
  temp_min : Int
  temp_max : Int

/-- The decoded OneCall response as far as `_run` reads it:
`.get("daily", [])` and `.get("timezone_offset", 0)`. -/
structure WeatherData where
  daily : List WDay
  timezone_offset : Option Int

/-- Outcome of the OneCall request inside `fetch_weather_data`
(meteo_tool.py lines 42-60): data, or an exception collapsed to `None`. -/
inductive WeatherOutcome where
  | exc (msg : String)
  | ok (data : WeatherData)

/-- `fetch_weather_data`. -/
def fetch_weather_data (outcome : WeatherOutcome) : Option WeatherData :=
  match outcome with
  | .exc _ => none
  | .ok d => some d

/-- The per-day f-string of `WeatherForecastTool._run` (line 150); `rd`
stands for `get_readable_date` (pure calendar rendering of the timestamp and
timezone offset, opaque here). -/
def formatForecast (rd : Int → Int → String) (tz : Int) (day : WDay) : String :=
  rd day.dt tz ++ ": " ++ day.weather.getD "" ++ ", day=" ++ toString day.temp_day ++
    "°C (min=" ++ toString day.temp_min ++ "°C, max=" ++ toString day.temp_max ++ "°C)"

/-- `WeatherForecastTool._run` (meteo_tool.py lines 111-153).  All four
failure modes — missing key, geocoding failure, weather fetch failure, and an
empty daily list — return fixed human-readable strings; the success path
returns the newline-joined forecast lines. -/
def meteo_run (api_key city_name country_code : String) (geo : GeoOutcome)
    (weather : WeatherOutcome) (rd : Int → Int → String) : String :=
  if api_key = "" then "Error: No METEO_API_KEY found in environment."
  else
    match fetch_city_coordinates geo with
    | none => "City " ++ sq ++ city_name ++ sq ++
        " not found or error in fetching coordinates."
    | some _ =>
      match fetch_weather_data weather with
      | none => "Failed to fetch weather data."
      | some wd =>
        if wd.daily.isEmpty then "No daily forecast found in the weather data."
        else String.intercalate "\n"
          (wd.daily.map (formatForecast rd (wd.timezone_offset.getD 0)))

/-- A decoded JSON dictionary (insertion-ordered, as Python dicts are). -/
def JDict := List (String × JVal)

/-- `d.get(key)`: the value if the key is present. -/
def jGet (d : JDict) (key : String) : Option JVal := List.lookup key d

/-- Outcome of the SerpApi hotels request: an exception, a body that is not
JSON (`response.json()` raises, uncaught by `_run`), or the decoded response,
read through `raw_data.get("properties", [])` and
`raw_data.get("search_metadata", \x7b\x7d)`. -/
inductive SerpOutcome where
  | exc (msg : String)
  | badJson (msg : String)
  | ok (properties : List JDict) (search_metadata : JVal)

/-- `p.get("type") == "hotel"` (hotels_tool.py line 221). -/
def isHotelProp (p : JDict) : Bool :=
  match jGet p "type" with
  | some (.str s) => s == "hotel"
  | _ => false

/-- `hotel.get("rate_per_night", \x7b\x7d).get("lowest")` (line 235); a
non-dict value under the key would raise AttributeError in Python and is
unreached for API-shaped data. -/
def ratePrice (h : JDict) : JVal :=
  match jGet h "rate_per_night" with
  | some (.obj f) =>
    match List.lookup "lowest" f with
    | some v => v
    | none => .null
  | _ => .null

/-- `hotel.get("nearby_places", [\x7b\x7d])[0].get("name", "No address info")`
(lines 237-239); a present empty list would raise IndexError in Python,
unreached for API-shaped data. -/
def addrOf (h : JDict) : JVal :=
  match jGet h "nearby_places" with
  | some (.arr (JVal.obj f :: _)) =>
    match List.lookup "name" f with
    | some v => v
    | none => .str "No address info"
  | _ => .str "No address info"

/-- One cleaned result entry (hotels_tool.py lines 229-242); absent keys
become JSON null via `dict.get`. -/
def cleanedHotel (h : JDict) : JVal :=
  .obj [("name", (jGet h "name").getD .null),
        ("description", (jGet h "description").getD .null),
        ("rating", (jGet h "overall_rating").getD .null),
        ("price", ratePrice h),
        ("hotel_class", (jGet h "extracted_hotel_class").getD .null),
        ("address", addrOf h),
        ("url", (jGet h "link").getD .null)]

/-- The optional/filter parameters appended after the base dict by
`HotelSearchTool._run` (hotels_tool.py lines 164-204). -/
def hotels_opt_params (gl hl currency children_ages : Option String)
    (sort_by min_price max_price : Option Int)
    (property_types amenities : Option String) (rating : Option Int)
    (brands hotel_class : Option String)
    (free_cancellation special_offers eco_certified vacation_rentals : Bool)
    (bedrooms bathrooms : Int) (next_page_token property_token : Option String) :
    List (String × JVal) :=
  addStr "gl" gl ++ addStr "hl" hl ++ addStr "currency" currency
  ++ addStr "children_ages" children_ages
  ++ addNum "sort_by" sort_by ++ addNum "min_price" min_price ++ addNum "max_price" max_price
  ++ addStr "property_types" property_types ++ addStr "amenities" amenities
  ++ addNum "rating" rating
  ++ addStr "brands" brands ++ addStr "hotel_class" hotel_class
  ++ (if free_cancellation then [("free_cancellation", .str "true")] else [])
  ++ (if special_offers then [("special_offers", .str "true")] else [])
  ++ (if eco_certified then [("eco_certified", .str "true")] else [])
  ++ (if vacation_rentals then [("vacation_rentals", .str "true")] else [])
  ++ (if bedrooms > 0 then [("bedrooms", .num bedrooms)] else [])
  ++ (if bathrooms > 0 then [("bathrooms", .num bathrooms)] else [])
  ++ addStr "next_page_token" next_page_token ++ addStr "property_token" property_token

/-- The fields of the request dict after the "api_key" entry. -/
def hotelsTailFields (q check_in_date check_out_date : String)
    (adults children : Int) (opts : List (String × JVal)) : List (String × JVal) :=
  ("q", .str q) :: ("check_in_date", .str check_in_date) ::
    ("check_out_date", .str check_out_date) :: ("adults", .num adults) ::
    ("children", .num children) :: opts

/-- The full request parameter dict (hotels_tool.py lines 154-204): the base
dict in insertion order — engine, api_key, q, dates, adults, children — then
the guarded optional entries. -/
def hotels_params (serpapi_key q check_in_date check_out_date : String)
    (adults children : Int) (opts : List (String × JVal)) : List (String × JVal) :=
  ("engine", .str "google_hotels") :: ("api_key", .str serpapi_key) ::
    hotelsTailFields q check_in_date check_out_date adults children opts

/-- The `mini_json` payload (hotels_tool.py lines 244-255): the cleaned
results, then `raw_meta` echoing the full `search_parameters` dict — the
`api_key` included — plus the SerpApi metadata. -/
def hotelsMiniJson (cleaned : List JVal) (params : List (String × JVal))
    (meta : JVal) : String :=
  dumps (.obj [("results", .arr cleaned),
               ("raw_meta", .obj [("search_parameters", .obj params),
                                  ("serpapi_metadata", meta)])])

/-- `HotelSearchTool._run` (hotels_tool.py lines 117-257).  Key resolution and
request failure translation as in the flights tool; on success the properties
are filtered to hotels, truncated to three, cleaned, and serialized together
with the echoed request parameters.  `Except.error` models the uncaught
`response.json()` decode exception. -/
def hotels_run (api_key env_key : Option String)
    (q check_in_date check_out_date : String) (adults children : Int)
    (gl hl currency children_ages : Option String)
    (sort_by min_price max_price : Option Int)
    (property_types amenities : Option String) (rating : Option Int)
    (brands hotel_class : Option String)
    (free_cancellation special_offers eco_certified vacation_rentals : Bool)
    (bedrooms bathrooms : Int) (next_page_token property_token : Option String)
    (net : List (String × JVal) → SerpOutcome) : Except String String :=
  match serpKeyOf api_key env_key with
  | none => .ok "Error: No SerpApi key provided (SERPAPI_API_KEY)."
  | some serpapi_key =>
    let params := hotels_params serpapi_key q check_in_date check_out_date adults children
      (hotels_opt_params gl hl currency children_ages sort_by min_price max_price
        property_types amenities rating brands hotel_class free_cancellation
        special_offers eco_certified vacation_rentals bedrooms bathrooms
        next_page_token property_token)
    match net params with
    | .exc e => .ok ("Error during API call: " ++ e)
    | .badJson e => .error e
    | .ok props meta =>
      let hotel_results := props.filter isHotelProp
      if hotel_results.isEmpty then .ok "No hotels found for the given criteria."
      else .ok (hotelsMiniJson ((hotel_results.take 3).map cleanedHotel) params meta)

/-! ## Concrete instances for counterexamples and witnesses -/

/-- The root supervisor prompt (prompt text is out of scope; opaque). -/
def the_supervisor_prompt : String := "You are a cool travel planner assistant. "

/-- `teams_supervisor_node` (francis_agency.py lines 92-100): the root
supervisor over the three team-bound workers. -/
def teams_supervisor_node (oracle : String → List Message → RoutingDecision) :
    State → SupCommand :=
  make_supervisor_node oracle root_members the_supervisor_prompt

/-- A stub decision oracle emitting a name outside the declared roster. -/
def bad_oracle : String → List Message → RoutingDecision :=
  fun _ _ => ⟨"unknown_worker", some "investigate", none, none⟩

/-- A one-message session state. -/
def c1_state : State := ⟨[⟨"human", some "user", "plan a trip"⟩], none, none⟩

/-- A sub-graph stub that returns its input state unchanged (so the digest it
yields back is exactly the seed message). -/
def id_invoke : State → Except String State := fun s => Except.ok s

/-- Parent state whose supervisor wrote empty instructions while the last log
entry is a worker digest, not the user's message. -/
def c4_state_fallback : State :=
  ⟨[⟨"human", some "user", "book me a trip"⟩,
    ⟨"human", some "research_team", "weather is sunny"⟩],
   some "research_team", some ""⟩

/-- Parent state whose instructions carry surrounding whitespace. -/
def c4_state_padded : State :=
  ⟨[⟨"human", some "user", "book me a trip"⟩],
   some "trip_planner", some "  plan a trip to Rome  "⟩

/-! ## Spec-side definition used for the refinement comparison of C4 -/

/-- Rendering of the specification's words "the most recent user-originated
message of the parent's history" (spec section 4.4), for comparison with the
source-derived `contentToSend`. -/
def specMostRecentUserContent (st : State) : Option String :=
  ((st.messages.filter (fun m => m.name == some "user")).getLast?).map (·.content)

/-! ## Small helper predicates and string lemmas -/

/-- The routing target of an optional worker command, `true` when the command
exists and targets `t` (vacuously `true` on a raised exception). -/
def optTargets (t : String) : Option WCommand → Bool
  | some c => c.goto == t
  | none => true

/-- The routing target of a fallible worker command. -/
def exceptTargets (t : String) : Except String WCommand → Bool
  | .ok c => c.goto == t
  | .error _ => true

theorem str_lcancel {p x y : String} (h : p ++ x = p ++ y) : x = y := by
  apply String.ext
  have h2 := congrArg String.data h
  rw [String.data_append, String.data_append] at h2
  exact List.append_cancel_left h2

theorem str_rcancel {x y s : String} (h : x ++ s = y ++ s) : x = y := by
  apply String.ext
  have h2 := congrArg String.data h
  rw [String.data_append, String.data_append] at h2
  exact List.append_cancel_right h2

/-- `x` occurs verbatim inside `y`. -/
def SubS (x y : String) : Prop := ∃ p s : String, y = p ++ x ++ s

theorem subS_trans {x y z : String} (h1 : SubS x y) (h2 : SubS y z) : SubS x z := by
  obtain ⟨p, s, hy⟩ := h1
  obtain ⟨p2, s2, hz⟩ := h2
  exact ⟨p2 ++ p, s ++ s2, by rw [hz, hy]; simp [String.append_assoc]⟩

theorem subS_left {x y : String} (a : String) (h : SubS x y) : SubS x (a ++ y) := by
  obtain ⟨p, s, hy⟩ := h
  exact ⟨a ++ p, s, by rw [hy]; simp [String.append_assoc]⟩

theorem subS_right {x y : String} (b : String) (h : SubS x y) : SubS x (y ++ b) := by
  obtain ⟨p, s, hy⟩ := h
  exact ⟨p, s ++ b, by rw [hy]; simp [String.append_assoc]⟩

theorem subS_self (x : String) : SubS x x := ⟨"", "", by simp⟩

/-! Monotonicity of the driver's stream processing: it only appends to the
session log, never removes or rewrites committed messages. -/

theorem processMsgs_mono (st : State) (agent em : String) (mv : MsgsVal) :
    ∃ t, (processMsgs st agent em mv).1.messages = st.messages ++ t := by
  unfold processMsgs
  rcases mv with l | s | _
  · rcases h : l.getLast? with _ | lm <;> simp [h]
  · by_cases hs : s = "" <;> simp [hs]
  · exact ⟨[], by simp⟩

theorem processInstr_mono (st1 : State) (em : String) (evs : List Event)
    (upd : NodeUpd) : (processInstr st1 em evs upd).1 = st1 := by
  unfold processInstr
  repeat' split
  all_goals rfl

theorem processAgent_mono (st : State) (agent : String) (upd : NodeUpd) :
    ∃ t, (processAgent st agent upd).1.messages = st.messages ++ t := by
  unfold processAgent
  split
  · exact ⟨[], by simp⟩
  · rename_i em heq
    split
    · rename_i st1 evs e heq2
      obtain ⟨t, ht⟩ := processMsgs_mono st agent em upd.messages
      rw [heq2] at ht
      exact ⟨t, ht⟩
    · rename_i st1 evs heq2
      obtain ⟨t, ht⟩ := processMsgs_mono st agent em upd.messages
      rw [heq2] at ht
      exact ⟨t, by rw [processInstr_mono]; exact ht⟩

theorem processAgents_mono (pairs : List (String × NodeUpd)) : ∀ st : State,
    ∃ t, (processAgents st pairs).1.messages = st.messages ++ t := by
  induction pairs with
  | nil => exact fun st => ⟨[], by simp [processAgents]⟩
  | cons hd rest ih =>
    intro st
    obtain ⟨a, u⟩ := hd
    unfold processAgents
    split
    · rename_i st1 evs e heq
      obtain ⟨t1, ht1⟩ := processAgent_mono st a u
      rw [heq] at ht1
      exact ⟨t1, ht1⟩
    · rename_i st1 evs heq
      obtain ⟨t1, ht1⟩ := processAgent_mono st a u
      rw [heq] at ht1
      obtain ⟨t2, ht2⟩ := ih st1
      split
      rename_i st2 evs2 r heq2
      rw [heq2] at ht2
      exact ⟨t1 ++ t2, by simp_all⟩

theorem processOutput_mono (st : State) (out : List (String × NodeUpd)) :
    ∃ t, (processOutput st out).1.messages = st.messages ++ t := by
  unfold processOutput
  split
  · rename_i st1 evs e heq
    obtain ⟨t, ht⟩ := processAgents_mono out st
    rw [heq] at ht
    exact ⟨t, ht⟩
  · rename_i st1 evs heq
    obtain ⟨t, ht⟩ := processAgents_mono out st
    rw [heq] at ht
    exact ⟨t, ht⟩

theorem processOutputs_mono (outs : List (List (String × NodeUpd))) :
    ∀ st : State, ∃ t, (processOutputs st outs).1.messages = st.messages ++ t := by
  induction outs with
  | nil => exact fun st => ⟨[], by simp [processOutputs]⟩
  | cons out rest ih =>
    intro st
    unfold processOutputs
    split
    · rename_i st1 evs e heq
      obtain ⟨t1, ht1⟩ := processOutput_mono st out
      rw [heq] at ht1
      exact ⟨t1, ht1⟩
    · rename_i st1 evs heq
      obtain ⟨t1, ht1⟩ := processOutput_mono st out
      rw [heq] at ht1
      obtain ⟨t2, ht2⟩ := ih st1
      split
      rename_i st2 evs2 r heq2
      rw [heq2] at ht2
      exact ⟨t1 ++ t2, by simp_all⟩

/-! ## Claim theorems -/

/-- Claim C10: if the external input for a turn is the empty string, the
driver loop performs no graph step and leaves the session state completely
unchanged — no message is appended and no node is invoked for that turn
(`if not user_input: continue`, francis_agency.py line 319). -/
theorem c10_empty_input_noop (outs : List (List (String × NodeUpd)))
    (ending : StreamEnd) (st : State) :
    driver_turn "" outs ending st = ⟨st, [], false⟩ := rfl

/-- Claim C7: every worker node — the four capability-bound nodes and the
three team-bound nodes — unconditionally returns a command whose target is
the team's supervisor, for every agent behaviour, sub-graph behaviour and
input state; a worker never transitions to another worker and never ends the
team. -/
theorem c7_star_topology (a1 a2 a3 a4 : State → State)
    (g1 g2 g3 : State → Except String State) (st : State) :
    optTargets "supervisor" (search_node a1 st) = true
    ∧ optTargets "supervisor" (meteo_node a2 st) = true
    ∧ optTargets "supervisor" (search_flight_node a3 st) = true
    ∧ optTargets "supervisor" (search_hotel_node a4 st) = true
    ∧ exceptTargets "supervisor" (call_research_team g1 st) = true
    ∧ exceptTargets "supervisor" (call_trip_team g2 st) = true
    ∧ exceptTargets "supervisor" (call_accomodation_team g3 st) = true := by
  have hopt : ∀ (ag : State → State) (nm : String),
      optTargets "supervisor" (((ag st).messages.getLast?).map fun lm =>
        (⟨"supervisor", [⟨"human", some nm, lm.content⟩]⟩ : WCommand)) = true := by
    intro ag nm
    rcases h : (ag st).messages.getLast? with _ | lm <;> simp [optTargets, h]
  have hteam : ∀ (nm : String) (g : State → Except String State),
      exceptTargets "supervisor" (call_team_node nm g st) = true := by
    intro nm g
    unfold call_team_node
    rcases h1 : contentToSend st with _ | c
    · rfl
    · rcases h2 : g (subTeamLocalState nm c) with e | sub
      · simp [h2, exceptTargets]
      · rcases h3 : sub.messages.getLast? with _ | lm <;> simp [h2, h3, exceptTargets]
  exact ⟨hopt a1 "search", hopt a2 "meteo", hopt a3 "flight", hopt a4 "hotel",
         hteam "research_team" g1, hteam "trip_planner" g2,
         hteam "accomodation_agent" g3⟩

/-- Claim C1, counterexample: the claim states that a decision whose `next`
lies outside the declared members plus FINISH is rejected before being
applied.  At this concrete input the supervisor node applies it instead: the
returned command routes to the undeclared name "unknown_worker" and the
update writes it into `state.next` — no rejection happens in
`supervisor_node`. -/
theorem c1_counterexample :
    (teams_supervisor_node bad_oracle c1_state).goto = "unknown_worker"
    ∧ "unknown_worker" ∉ root_members
    ∧ "unknown_worker" ≠ "FINISH"
    ∧ (applySup c1_state (teams_supervisor_node bad_oracle c1_state)).next
        = some "unknown_worker" := by
  exact ⟨rfl, by decide, by decide, rfl⟩

/-- Claim C1, amended: `supervisor_node` performs no validation of the
oracle's `next` against the declared members.  Any value other than the
sentinel "FINISH" — declared worker or not — becomes the goto target verbatim
and is written into `state.next`; rejection of an undeclared target is left
to the surrounding graph framework. -/
theorem c1_amended_no_validation (oracle : String → List Message → RoutingDecision)
    (members : List String) (custom_prompt : String) (st : State)
    (hfin : (oracle (team_system_prompt custom_prompt members) st.messages).next ≠ "FINISH")
    (hout : (oracle (team_system_prompt custom_prompt members) st.messages).next ∉ members) :
    ((make_supervisor_node oracle members custom_prompt) st).goto
      = (oracle (team_system_prompt custom_prompt members) st.messages).next
    ∧ (applySup st ((make_supervisor_node oracle members custom_prompt) st)).next
      = some ((oracle (team_system_prompt custom_prompt members) st.messages).next) := by
  constructor <;> simp [make_supervisor_node, applySup, hfin]

/-- Witness for C1 at the stub oracle and the root roster. -/
theorem c1_witness :
    ((make_supervisor_node bad_oracle root_members the_supervisor_prompt) c1_state).goto
      = (bad_oracle (team_system_prompt the_supervisor_prompt root_members) c1_state.messages).next
    ∧ (applySup c1_state ((make_supervisor_node bad_oracle root_members the_supervisor_prompt) c1_state)).next
      = some ((bad_oracle (team_system_prompt the_supervisor_prompt root_members) c1_state.messages).next) :=
  c1_amended_no_validation bad_oracle root_members the_supervisor_prompt c1_state
    (by decide) (by decide)

/-- Claim C5: for a decision whose `next` is FINISH or a declared worker (with
the roster not containing the internal END sentinel), the supervisor's command
targets END exactly when `next` = FINISH and the named worker otherwise; the
update writes `state.next` and `state.instructions` from the decision, and it
appends the decision's `answer` as a message if and only if `answer` is
populated. -/
theorem c5_supervisor_contract (oracle : String → List Message → RoutingDecision)
    (members : List String) (custom_prompt : String) (st : State)
    (hmem : END ∉ members)
    (hdom : (oracle (team_system_prompt custom_prompt members) st.messages).next = "FINISH"
      ∨ (oracle (team_system_prompt custom_prompt members) st.messages).next ∈ members) :
    (((make_supervisor_node oracle members custom_prompt) st).goto = END
      ↔ (oracle (team_system_prompt custom_prompt members) st.messages).next = "FINISH")
    ∧ ((oracle (team_system_prompt custom_prompt members) st.messages).next ≠ "FINISH" →
      ((make_supervisor_node oracle members custom_prompt) st).goto
        = (oracle (team_system_prompt custom_prompt members) st.messages).next)
    ∧ (applySup st ((make_supervisor_node oracle members custom_prompt) st)).next
        = some ((make_supervisor_node oracle members custom_prompt) st).goto
    ∧ (applySup st ((make_supervisor_node oracle members custom_prompt) st)).instructions
        = (oracle (team_system_prompt custom_prompt members) st.messages).instructions
    ∧ ((oracle (team_system_prompt custom_prompt members) st.messages).answer = none →
      (applySup st ((make_supervisor_node oracle members custom_prompt) st)).messages
        = st.messages)
    ∧ (∀ a, (oracle (team_system_prompt custom_prompt members) st.messages).answer = some a →
      (applySup st ((make_supervisor_node oracle members custom_prompt) st)).messages
        = st.messages ++ [⟨"human", none, a⟩]) := by
  by_cases hf : (oracle (team_system_prompt custom_prompt members) st.messages).next = "FINISH"
  · refine ⟨by simp [make_supervisor_node, hf], fun h => absurd hf h, ?_, ?_, ?_, ?_⟩
    · simp [make_supervisor_node, applySup, hf]
    · simp [make_supervisor_node, applySup]
    · intro h; simp [make_supervisor_node, applySup, coerceAnswer, h]
    · intro a h; simp [make_supervisor_node, applySup, coerceAnswer, h]
  · have hne : (oracle (team_system_prompt custom_prompt members) st.messages).next ≠ END := by
      intro hEq
      rcases hdom with h | h
      · exact hf h
      · rw [hEq] at h; exact hmem h
    refine ⟨?_, fun _ => by simp [make_supervisor_node, hf], ?_, ?_, ?_, ?_⟩
    · constructor
      · intro h
        exfalso
        apply hne
        simpa [make_supervisor_node, hf] using h
      · intro h; exact absurd h hf
    · simp [make_supervisor_node, applySup, hf]
    · simp [make_supervisor_node, applySup]
    · intro h; simp [make_supervisor_node, applySup, coerceAnswer, h]
    · intro a h; simp [make_supervisor_node, applySup, coerceAnswer, h]

/-- Witness for C5: a decision routing to a declared worker with a populated
answer, checked on the root roster. -/
theorem c5_witness :
    ((make_supervisor_node (fun _ _ => ⟨"trip_planner", some "find flights", none, some "on it"⟩)
        root_members the_supervisor_prompt) c1_state).goto = "trip_planner"
    ∧ (applySup c1_state ((make_supervisor_node
          (fun _ _ => ⟨"trip_planner", some "find flights", none, some "on it"⟩)
          root_members the_supervisor_prompt) c1_state)).next = some "trip_planner"
    ∧ (applySup c1_state ((make_supervisor_node
          (fun _ _ => ⟨"trip_planner", some "find flights", none, some "on it"⟩)
          root_members the_supervisor_prompt) c1_state)).instructions = some "find flights"
    ∧ (applySup c1_state ((make_supervisor_node
          (fun _ _ => ⟨"trip_planner", some "find flights", none, some "on it"⟩)
          root_members the_supervisor_prompt) c1_state)).messages
        = c1_state.messages ++ [⟨"human", none, "on it"⟩] := by
  obtain ⟨hiff, hgoto, hnext, hinstr, hnone, hsome⟩ :=
    c5_supervisor_contract (fun _ _ => ⟨"trip_planner", some "find flights", none, some "on it"⟩)
      root_members the_supervisor_prompt c1_state (by decide) (Or.inr (by decide))
  exact ⟨hgoto (by decide), by rw [hnext]; rfl, hinstr, hsome "on it" rfl⟩

/-- Claim C4, counterexample: the claim says the child's sole initial message
carries the supervisor's `instructions` verbatim and that emptiness falls back
to the most recent user-originated message.  At `c4_state_fallback` the
instructions are empty and the seed is the content of the LAST log message — a
worker digest, not the most recent user message; at `c4_state_padded` the seed
is the whitespace-stripped instructions, not the instructions themselves. -/
theorem c4_counterexample :
    contentToSend c4_state_fallback = some "weather is sunny"
    ∧ specMostRecentUserContent c4_state_fallback = some "book me a trip"
    ∧ ("weather is sunny" : String) ≠ "book me a trip"
    ∧ call_trip_team id_invoke c4_state_fallback
        = .ok ⟨"supervisor", [⟨"human", some "trip_planner", "weather is sunny"⟩]⟩
    ∧ contentToSend c4_state_padded = some "plan a trip to Rome"
    ∧ instrRead c4_state_padded ≠ "plan a trip to Rome" := by
  exact ⟨rfl, by decide, by decide, rfl, rfl, by decide⟩

/-- Claim C4, amended: the child state is created with exactly one initial
message; its content is the whitespace-stripped instructions when those strip
to something nonempty, and otherwise the content of the last message of the
parent's history, regardless of who authored it. -/
theorem c4_amended_seed (st : State) :
    (pyStrip (instrRead st) ≠ "" → contentToSend st = some (pyStrip (instrRead st)))
    ∧ (pyStrip (instrRead st) = "" →
        contentToSend st = (st.messages.getLast?).map (·.content))
    ∧ (∀ n c, (subTeamLocalState n c).messages = [⟨"human", some n, c⟩]) := by
  refine ⟨?_, ?_, fun n c => rfl⟩
  · intro h; simp [contentToSend, h]
  · intro h; simp [contentToSend, h]

/-- Witness for C4 on both seeding branches. -/
theorem c4_witness :
    contentToSend c4_state_padded = some (pyStrip (instrRead c4_state_padded))
    ∧ contentToSend c4_state_fallback
        = (c4_state_fallback.messages.getLast?).map (·.content) :=
  ⟨(c4_amended_seed c4_state_padded).1 (by decide),
   (c4_amended_seed c4_state_fallback).2.1 (by decide)⟩

/-- Claim C2: whenever a team-bound worker call succeeds, exactly one message
is appended to the parent's log — whatever the child team did internally
(`invoke` is arbitrary) — and that message is attributed to the worker's
externally visible name with content equal to the child's final message. -/
theorem c2_single_digest (teamName : String) (invoke : State → Except String State)
    (st : State) (cmd : WCommand)
    (h : call_team_node teamName invoke st = .ok cmd) :
    (applyWorker st cmd).messages.length = st.messages.length + 1
    ∧ ∃ c sub lm, contentToSend st = some c
        ∧ invoke (subTeamLocalState teamName c) = .ok sub
        ∧ sub.messages.getLast? = some lm
        ∧ cmd = ⟨"supervisor", [⟨"human", some teamName, lm.content⟩]⟩
        ∧ (applyWorker st cmd).messages
            = st.messages ++ [⟨"human", some teamName, lm.content⟩] := by
  unfold call_team_node at h
  split at h
  · simp at h
  · rename_i c h1
    split at h
    · simp at h
    · rename_i sub h2
      split at h
      · simp at h
      · rename_i lm h3
        injection h with h4
        subst h4
        exact ⟨by simp [applyWorker], c, sub, lm, h1, h2, h3, rfl, by simp [applyWorker]⟩

/-- Witness for C2 at a stub child graph. -/
theorem c2_witness :
    (applyWorker c4_state_padded
      (⟨"supervisor", [⟨"human", some "trip_planner", "plan a trip to Rome"⟩]⟩ : WCommand)).messages.length
      = c4_state_padded.messages.length + 1
    ∧ ∃ c sub lm, contentToSend c4_state_padded = some c
        ∧ id_invoke (subTeamLocalState "trip_planner" c) = .ok sub
        ∧ sub.messages.getLast? = some lm
        ∧ (⟨"supervisor", [⟨"human", some "trip_planner", "plan a trip to Rome"⟩]⟩ : WCommand)
            = ⟨"supervisor", [⟨"human", some "trip_planner", lm.content⟩]⟩
        ∧ (applyWorker c4_state_padded
            (⟨"supervisor", [⟨"human", some "trip_planner", "plan a trip to Rome"⟩]⟩ : WCommand)).messages
            = c4_state_padded.messages ++ [⟨"human", some "trip_planner", lm.content⟩] :=
  c2_single_digest "trip_planner" id_invoke c4_state_padded
    ⟨"supervisor", [⟨"human", some "trip_planner", "plan a trip to Rome"⟩]⟩ rfl

/-- Claim C8: with a fixed decision oracle and fixed deterministic agents, the
digest command a team-bound delegation produces depends only on the seed
content; in particular two invocations on identical input states are
identical (the routing logic adds no nondeterminism of its own). -/
theorem c8_deterministic_digest (oracle : String → List Message → RoutingDecision)
    (sAgent mAgent : State → State) (fuel : Nat) (st1 st2 : State)
    (h : contentToSend st1 = contentToSend st2) :
    call_research_team (research_graph_invoke oracle sAgent mAgent fuel) st1
      = call_research_team (research_graph_invoke oracle sAgent mAgent fuel) st2 := by
  unfold call_research_team call_team_node
  rw [h]

/-- Witness for C8: two observably different parent states with the same seed
produce the same digest command. -/
theorem c8_witness :
    call_research_team
        (research_graph_invoke (fun _ _ => ⟨"FINISH", none, none, some "done"⟩) id id 3) c1_state
      = call_research_team
        (research_graph_invoke (fun _ _ => ⟨"FINISH", none, none, some "done"⟩) id id 3)
        ⟨[⟨"ai", some "other", "plan a trip"⟩], none, some "   "⟩ :=
  c8_deterministic_digest (fun _ _ => ⟨"FINISH", none, none, some "done"⟩) id id 3
    c1_state ⟨[⟨"ai", some "other", "plan a trip"⟩], none, some "   "⟩ (by decide)

/-- Claim C3, counterexample: the claim says a step-ceiling breach appends an
explicit failure notice to the conversation log.  On this concrete breached
turn the final log contains only the user's message — the notice goes to the
console (`print("Erreur : ...")`) and nothing is appended to the log. -/
theorem c3_counterexample :
    driver_turn "plan a trip" []
        (.breach "GraphRecursionError: Recursion limit of 100 reached") ⟨[], none, none⟩
      = ⟨⟨[⟨"human", some "user", "plan a trip"⟩], none, none⟩,
         [.errLine "GraphRecursionError: Recursion limit of 100 reached"], true⟩ := rfl

/-- Claim C3, amended: on a ceiling breach the turn is hard-aborted with all
already-committed messages kept — the breached turn's log is exactly the log
of a normally-ended turn over the same streamed outputs, extending the prior
session log with the user input — and the failure notice is printed to the
console as the final `Erreur` line rather than appended to the log. -/
theorem c3_amended_abort (input : String) (outs : List (List (String × NodeUpd)))
    (st : State) (e : String)
    (h1 : input ≠ "") (h2 : pyLower input ≠ "exit") :
    (driver_turn input outs (.breach e) st).state = (driver_turn input outs .done st).state
    ∧ (∃ tail, (driver_turn input outs (.breach e) st).state.messages
        = st.messages ++ ⟨"human", some "user", input⟩ :: tail)
    ∧ ((processOutputs { st with messages := st.messages ++ [⟨"human", some "user", input⟩] } outs).2.2 = none →
        (driver_turn input outs (.breach e) st).events
          = (driver_turn input outs .done st).events ++ [.errLine e]) := by
  have hturn : ∀ endg, driver_turn input outs endg st
      = (match processOutputs { st with messages := st.messages ++ [⟨"human", some "user", input⟩] } outs with
         | (st2, evs, some e2) => ⟨st2, evs ++ [.errLine e2], true⟩
         | (st2, evs, none) =>
           match endg with
           | .done => ⟨st2, evs, true⟩
           | .breach e2 => ⟨st2, evs ++ [.errLine e2], true⟩) := by
    intro endg
    unfold driver_turn
    rw [if_neg h2, if_neg h1]
  obtain ⟨t, ht⟩ := processOutputs_mono outs
    { st with messages := st.messages ++ [⟨"human", some "user", input⟩] }
  rcases hp : processOutputs { st with messages := st.messages ++ [⟨"human", some "user", input⟩] } outs
    with ⟨st2, evs, r⟩
  rw [hp] at ht
  refine ⟨?_, ?_, ?_⟩
  · rw [hturn (.breach e), hturn .done, hp]
    cases r <;> rfl
  · rw [hturn (.breach e), hp]
    cases r <;> exact ⟨t, by simpa using ht⟩
  · intro hr
    cases r with
    | some e2 => simp at hr
    | none =>
      rw [hturn (.breach e), hturn .done, hp]

/-- Witness for C3 on a concrete breached turn. -/
theorem c3_witness :
    ((driver_turn "hello" [] (.breach "GraphRecursionError") ⟨[], none, none⟩).state
      = (driver_turn "hello" [] .done ⟨[], none, none⟩).state)
    ∧ (∃ tail, (driver_turn "hello" [] (.breach "GraphRecursionError") ⟨[], none, none⟩).state.messages
        = (⟨[], none, none⟩ : State).messages ++ ⟨"human", some "user", "hello"⟩ :: tail)
    ∧ ((driver_turn "hello" [] (.breach "GraphRecursionError") ⟨[], none, none⟩).events
        = (driver_turn "hello" [] .done ⟨[], none, none⟩).events ++ [.errLine "GraphRecursionError"]) :=
  ⟨(c3_amended_abort "hello" [] ⟨[], none, none⟩ "GraphRecursionError" (by decide) (by decide)).1,
   (c3_amended_abort "hello" [] ⟨[], none, none⟩ "GraphRecursionError" (by decide) (by decide)).2.1,
   (c3_amended_abort "hello" [] ⟨[], none, none⟩ "GraphRecursionError" (by decide) (by decide)).2.2 rfl⟩

/-- Claim C6: the enumerated capability failures — missing API key, request
exceptions (network, auth, rate-limit) in the flights tool, and geocoding,
fetch or empty-forecast failures in the weather tool — are translated locally
into human-readable result strings returned to the caller (the tool functions
are total, nothing is raised for these modes), and the capability-bound worker
node still hands control back to the supervisor regardless of the digest. -/
theorem c6_capability_error_translation
    (departure_id arrival_id outbound_date return_date : Option String)
    (ty travel_class adults children infants_in_seat infants_on_lap stops : Int)
    (gl hl currency : Option String) (max_price : Option Int)
    (outbound_times return_times : Option String) (deep_search : Bool)
    (e : String) (k : String) (hk : k ≠ "")
    (city country : String) (lat lon : Int) (gex wex : String) (tz : Option Int)
    (rd : Int → Int → String) :
    flights_run none none departure_id arrival_id outbound_date return_date ty
        travel_class adults children infants_in_seat infants_on_lap stops gl hl
        currency max_price outbound_times return_times deep_search (fun _ => .exc e)
      = "Error: No SerpApi key provided (SERPAPI_API_KEY)."
    ∧ flights_run (some k) none departure_id arrival_id outbound_date return_date ty
        travel_class adults children infants_in_seat infants_on_lap stops gl hl
        currency max_price outbound_times return_times deep_search (fun _ => .exc e)
      = "Error during API call: " ++ e
    ∧ meteo_run "" city country (.exc gex) (.exc wex) rd
      = "Error: No METEO_API_KEY found in environment."
    ∧ meteo_run k city country (.exc gex) (.exc wex) rd
      = "City " ++ sq ++ city ++ sq ++ " not found or error in fetching coordinates."
    ∧ meteo_run k city country (.found lat lon) (.exc wex) rd
      = "Failed to fetch weather data."
    ∧ meteo_run k city country (.found lat lon) (.ok ⟨[], tz⟩) rd
      = "No daily forecast found in the weather data."
    ∧ (∀ (ag : State → State) (st2 : State),
        optTargets "supervisor" (search_flight_node ag st2) = true) := by
  refine ⟨rfl, ?_, rfl, ?_, ?_, ?_, ?_⟩
  · simp [flights_run, serpKeyOf, pyStrOpt, hk]
  · simp [meteo_run, fetch_city_coordinates, hk]
  · simp [meteo_run, fetch_city_coordinates, fetch_weather_data, hk]
  · simp [meteo_run, fetch_city_coordinates, fetch_weather_data, hk]
  · intro ag st2
    rcases h : (ag st2).messages.getLast? with _ | lm <;>
      simp [search_flight_node, optTargets, h]

/-- Witness for C6 at concrete tool inputs. -/
theorem c6_witness :
    flights_run none none none none none none 1 1 1 0 0 0 0 none none none none
        none none false (fun _ => .exc "ConnectionError")
      = "Error: No SerpApi key provided (SERPAPI_API_KEY)."
    ∧ flights_run (some "WKEY") none none none none none 1 1 1 0 0 0 0 none none
        none none none none false (fun _ => .exc "ConnectionError")
      = "Error during API call: " ++ "ConnectionError"
    ∧ meteo_run "" "Paris" "FR" (.exc "timeout") (.exc "timeout") (fun _ _ => "")
      = "Error: No METEO_API_KEY found in environment."
    ∧ meteo_run "WKEY" "Paris" "FR" (.exc "timeout") (.exc "timeout") (fun _ _ => "")
      = "City " ++ sq ++ "Paris" ++ sq ++ " not found or error in fetching coordinates."
    ∧ meteo_run "WKEY" "Paris" "FR" (.found 48 2) (.exc "timeout") (fun _ _ => "")
      = "Failed to fetch weather data."
    ∧ meteo_run "WKEY" "Paris" "FR" (.found 48 2) (.ok ⟨[], some 0⟩) (fun _ _ => "")
      = "No daily forecast found in the weather data."
    ∧ optTargets "supervisor" (search_flight_node id c1_state) = true := by
  obtain ⟨h1, h2, h3, h4, h5, h6, h7⟩ :=
    c6_capability_error_translation none none none none 1 1 1 0 0 0 0 none none none
      none none none false "ConnectionError" "WKEY" (by decide) "Paris" "FR" 48 2
      "timeout" "timeout" (some 0) (fun _ _ => "")
  exact ⟨h1, h2, h3, h4, h5, h6, h7 id c1_state⟩

/-! ## Lemmas about json.dumps used for the hotel-tool key-leak claim -/

theorem subS_str_of_escaped {k : String} (hesc : jsonEscape k = k) :
    SubS k (dumps (.str k)) :=
  ⟨"\"", "\"", by
    rw [show dumps (.str k) = "\"" ++ jsonEscape k ++ "\"" from rfl, hesc]⟩

theorem subS_field_val (key : String) (v : JVal) (f0 : String × JVal)
    (rest : List (String × JVal)) :
    SubS (dumps v) (dumpsFields ((key, v) :: f0 :: rest)) :=
  ⟨"\"" ++ jsonEscape key ++ "\": ", ", " ++ dumpsFields (f0 :: rest), by
    rw [show dumpsFields ((key, v) :: f0 :: rest)
        = "\"" ++ jsonEscape key ++ "\": " ++ dumps v ++ ", " ++ dumpsFields (f0 :: rest)
        from rfl]
    simp [String.append_assoc]⟩

theorem subS_field_val_single (key : String) (v : JVal) :
    SubS (dumps v) (dumpsFields [(key, v)]) :=
  ⟨"\"" ++ jsonEscape key ++ "\": ", "", by
    rw [show dumpsFields [(key, v)] = "\"" ++ jsonEscape key ++ "\": " ++ dumps v from rfl]
    simp [String.append_assoc]⟩

theorem subS_fields_tail (key : String) (v : JVal) (f0 : String × JVal)
    (rest : List (String × JVal)) :
    SubS (dumpsFields (f0 :: rest)) (dumpsFields ((key, v) :: f0 :: rest)) :=
  ⟨"\"" ++ jsonEscape key ++ "\": " ++ dumps v ++ ", ", "", by
    rw [show dumpsFields ((key, v) :: f0 :: rest)
        = "\"" ++ jsonEscape key ++ "\": " ++ dumps v ++ ", " ++ dumpsFields (f0 :: rest)
        from rfl]
    simp [String.append_assoc]⟩

theorem subS_obj (fs : List (String × JVal)) : SubS (dumpsFields fs) (dumps (.obj fs)) :=
  ⟨"\x7b", "\x7d", by
    rw [show dumps (.obj fs) = "\x7b" ++ dumpsFields fs ++ "\x7d" from rfl]⟩

theorem obj_inj {fs1 fs2 : List (String × JVal)}
    (h : dumps (.obj fs1) = dumps (.obj fs2)) : dumpsFields fs1 = dumpsFields fs2 := by
  have e : ∀ fs, dumps (.obj fs) = ("\x7b" ++ dumpsFields fs) ++ "\x7d" := fun _ => rfl
  rw [e, e] at h
  exact str_lcancel (str_rcancel h)

theorem fields_tail_inj (key : String) (v : JVal) (f1 f2 : String × JVal)
    (t1 t2 : List (String × JVal))
    (h : dumpsFields ((key, v) :: f1 :: t1) = dumpsFields ((key, v) :: f2 :: t2)) :
    dumpsFields (f1 :: t1) = dumpsFields (f2 :: t2) := by
  have e : ∀ (f : String × JVal) (t : List (String × JVal)),
      dumpsFields ((key, v) :: f :: t)
        = ("\"" ++ jsonEscape key ++ "\": " ++ dumps v ++ ", ") ++ dumpsFields (f :: t) :=
    fun _ _ => rfl
  rw [e, e] at h
  exact str_lcancel h

theorem fields_head_val_inj (key : String) (v1 v2 : JVal) (f : String × JVal)
    (t : List (String × JVal))
    (h : dumpsFields ((key, v1) :: f :: t) = dumpsFields ((key, v2) :: f :: t)) :
    dumps v1 = dumps v2 := by
  have e : ∀ v : JVal, dumpsFields ((key, v) :: f :: t)
      = ((("\"" ++ jsonEscape key ++ "\": ") ++ dumps v) ++ ", ") ++ dumpsFields (f :: t) :=
    fun _ => rfl
  rw [e, e] at h
  exact str_lcancel (str_rcancel (str_rcancel h))

theorem fields_single_val_inj (key : String) (v1 v2 : JVal)
    (h : dumpsFields [(key, v1)] = dumpsFields [(key, v2)]) : dumps v1 = dumps v2 := by
  have e : ∀ v : JVal, dumpsFields [(key, v)] = ("\"" ++ jsonEscape key ++ "\": ") ++ dumps v :=
    fun _ => rfl
  rw [e, e] at h
  exact str_lcancel h

theorem dumps_str_inj {s1 s2 : String} (h : dumps (.str s1) = dumps (.str s2)) :
    jsonEscape s1 = jsonEscape s2 := by
  have e : ∀ s, dumps (.str s) = ("\"" ++ jsonEscape s) ++ "\"" := fun _ => rfl
  rw [e, e] at h
  exact str_lcancel (str_rcancel h)

/-- Claim C9: a successful hotel search echoes the request parameters inside
`raw_meta.search_parameters`, so the string returned to the caller contains
the SerpApi key verbatim (for keys that json-escape to themselves), and two
runs that differ only in the API key produce observably different outputs. -/
theorem c9_api_key_leak (k1 k2 q ci co : String) (adults children : Int)
    (gl hl currency children_ages : Option String)
    (sort_by min_price max_price : Option Int)
    (property_types amenities : Option String) (rating : Option Int)
    (brands hotel_class : Option String) (fc so ec vr : Bool)
    (bedrooms bathrooms : Int) (npt pt : Option String)
    (props : List JDict) (meta : JVal)
    (hk1 : k1 ≠ "") (hk2 : k2 ≠ "")
    (he1 : jsonEscape k1 = k1) (he2 : jsonEscape k2 = k2)
    (hfilter : (props.filter isHotelProp).isEmpty = false) :
    (∃ out, hotels_run (some k1) none q ci co adults children gl hl currency
        children_ages sort_by min_price max_price property_types amenities rating
        brands hotel_class fc so ec vr bedrooms bathrooms npt pt
        (fun _ => .ok props meta) = .ok out
      ∧ SubS k1 out)
    ∧ (k1 ≠ k2 →
      hotels_run (some k1) none q ci co adults children gl hl currency
          children_ages sort_by min_price max_price property_types amenities rating
          brands hotel_class fc so ec vr bedrooms bathrooms npt pt
          (fun _ => .ok props meta)
        ≠ hotels_run (some k2) none q ci co adults children gl hl currency
          children_ages sort_by min_price max_price property_types amenities rating
          brands hotel_class fc so ec vr bedrooms bathrooms npt pt
          (fun _ => .ok props meta)) := by
  have hrun : ∀ kk : String, kk ≠ "" →
      hotels_run (some kk) none q ci co adults children gl hl currency
          children_ages sort_by min_price max_price property_types amenities rating
          brands hotel_class fc so ec vr bedrooms bathrooms npt pt
          (fun _ => .ok props meta)
        = .ok (hotelsMiniJson (((props.filter isHotelProp).take 3).map cleanedHotel)
            (hotels_params kk q ci co adults children
              (hotels_opt_params gl hl currency children_ages sort_by min_price
                max_price property_types amenities rating brands hotel_class fc so
                ec vr bedrooms bathrooms npt pt)) meta) := by
    intro kk hkk
    unfold hotels_run
    simp [serpKeyOf, pyStrOpt, hkk, hfilter]
  constructor
  · refine ⟨hotelsMiniJson (((props.filter isHotelProp).take 3).map cleanedHotel)
        (hotels_params k1 q ci co adults children
          (hotels_opt_params gl hl currency children_ages sort_by min_price
            max_price property_types amenities rating brands hotel_class fc so
            ec vr bedrooms bathrooms npt pt)) meta, hrun k1 hk1, ?_⟩
    have s1 : SubS k1 (dumps (.str k1)) := subS_str_of_escaped he1
    have s2 := subS_field_val "api_key" (.str k1) ("q", .str q)
      (("check_in_date", .str ci) :: ("check_out_date", .str co) ::
       ("adults", .num adults) :: ("children", .num children) ::
       hotels_opt_params gl hl currency children_ages sort_by min_price max_price
         property_types amenities rating brands hotel_class fc so ec vr bedrooms
         bathrooms npt pt)
    have s3 := subS_fields_tail "engine" (.str "google_hotels") ("api_key", .str k1)
      (("q", .str q) :: ("check_in_date", .str ci) :: ("check_out_date", .str co) ::
       ("adults", .num adults) :: ("children", .num children) ::
       hotels_opt_params gl hl currency children_ages sort_by min_price max_price
         property_types amenities rating brands hotel_class fc so ec vr bedrooms
         bathrooms npt pt)
    have s4 := subS_obj (hotels_params k1 q ci co adults children
      (hotels_opt_params gl hl currency children_ages sort_by min_price max_price
        property_types amenities rating brands hotel_class fc so ec vr bedrooms
        bathrooms npt pt))
    have s5 := subS_field_val "search_parameters"
      (.obj (hotels_params k1 q ci co adults children
        (hotels_opt_params gl hl currency children_ages sort_by min_price max_price
          property_types amenities rating brands hotel_class fc so ec vr bedrooms
          bathrooms npt pt)))
      ("serpapi_metadata", meta) []
    have s6 := subS_obj [("search_parameters",
      JVal.obj (hotels_params k1 q ci co adults children
        (hotels_opt_params gl hl currency children_ages sort_by min_price max_price
          property_types amenities rating brands hotel_class fc so ec vr bedrooms
          bathrooms npt pt))), ("serpapi_metadata", meta)]
    have s7 := subS_field_val_single "raw_meta"
      (.obj [("search_parameters",
        JVal.obj (hotels_params k1 q ci co adults children
          (hotels_opt_params gl hl currency children_ages sort_by min_price max_price
            property_types amenities rating brands hotel_class fc so ec vr bedrooms
            bathrooms npt pt))), ("serpapi_metadata", meta)])
    have s8 := subS_fields_tail "results"
      (.arr (((props.filter isHotelProp).take 3).map cleanedHotel))
      ("raw_meta", JVal.obj [("search_parameters",
        JVal.obj (hotels_params k1 q ci co adults children
          (hotels_opt_params gl hl currency children_ages sort_by min_price max_price
            property_types amenities rating brands hotel_class fc so ec vr bedrooms
            bathrooms npt pt))), ("serpapi_metadata", meta)]) []
    have s9 := subS_obj [("results",
      JVal.arr (((props.filter isHotelProp).take 3).map cleanedHotel)),
      ("raw_meta", JVal.obj [("search_parameters",
        JVal.obj (hotels_params k1 q ci co adults children
          (hotels_opt_params gl hl currency children_ages sort_by min_price max_price
            property_types amenities rating brands hotel_class fc so ec vr bedrooms
            bathrooms npt pt))), ("serpapi_metadata", meta)])]
    exact subS_trans s1 (subS_trans s2 (subS_trans s3 (subS_trans s4 (subS_trans s5
      (subS_trans s6 (subS_trans s7 (subS_trans s8 s9)))))))
  · intro hne hEq
    rw [hrun k1 hk1, hrun k2 hk2] at hEq
    injection hEq with h0
    have h1 := obj_inj h0
    have h2 := fields_tail_inj "results"
      (.arr (((props.filter isHotelProp).take 3).map cleanedHotel)) _ _ [] [] h1
    have h3 := fields_single_val_inj "raw_meta" _ _ h2
    have h4 := obj_inj h3
    have h5 := fields_head_val_inj "search_parameters" _ _ ("serpapi_metadata", meta) [] h4
    have h6 := obj_inj h5
    have h7 := fields_tail_inj "engine" (.str "google_hotels") ("api_key", .str k1)
      ("api_key", .str k2) _ _ h6
    have h8 := fields_head_val_inj "api_key" (.str k1) (.str k2) ("q", .str q)
      (("check_in_date", .str ci) :: ("check_out_date", .str co) ::
       ("adults", .num adults) :: ("children", .num children) ::
       hotels_opt_params gl hl currency children_ages sort_by min_price max_price
         property_types amenities rating brands hotel_class fc so ec vr bedrooms
         bathrooms npt pt) h7
    have h9 := dumps_str_inj h8
    rw [he1, he2] at h9
    exact hne h9

/-- Witness for C9 at a concrete one-hotel response and two concrete keys. -/
theorem c9_witness :
    (∃ out, hotels_run (some "secretKeyA") none "hotels in paris" "2025-01-04"
        "2025-01-05" 2 0 none none none none none none none none none none none
        none false false false false 0 0 none none
        (fun _ => .ok [[("type", JVal.str "hotel"), ("name", JVal.str "Hotel Lux")]] JVal.null)
        = .ok out
      ∧ SubS "secretKeyA" out)
    ∧ hotels_run (some "secretKeyA") none "hotels in paris" "2025-01-04"
          "2025-01-05" 2 0 none none none none none none none none none none none
          none false false false false 0 0 none none
          (fun _ => .ok [[("type", JVal.str "hotel"), ("name", JVal.str "Hotel Lux")]] JVal.null)
        ≠ hotels_run (some "secretKeyB") none "hotels in paris" "2025-01-04"
          "2025-01-05" 2 0 none none none none none none none none none none none
          none false false false false 0 0 none none
          (fun _ => .ok [[("type", JVal.str "hotel"), ("name", JVal.str "Hotel Lux")]] JVal.null) :=
  ⟨(c9_api_key_leak "secretKeyA" "secretKeyB" "hotels in paris" "2025-01-04"
      "2025-01-05" 2 0 none none none none none none none none none none none none
      false false false false 0 0 none none
      [[("type", JVal.str "hotel"), ("name", JVal.str "Hotel Lux")]] JVal.null
      (by decide) (by decide) (by decide) (by decide) (by decide)).1,
   (c9_api_key_leak "secretKeyA" "secretKeyB" "hotels in paris" "2025-01-04"
      "2025-01-05" 2 0 none none none none none none none none none none none none
      false false false false 0 0 none none
      [[("type", JVal.str "hotel"), ("name", JVal.str "Hotel Lux")]] JVal.null
      (by decide) (by decide) (by decide) (by decide) (by decide)).2 (by decide)⟩

end FrancisAgency
